import Mathlib

/-!
Formal model of the pic2map geolocation pipeline.

The definitions below shallowly embed the Python sources of the repository:
`pic2map/gps.py` (metadata validation, partitioning, batch extraction),
`pic2map/db.py` (location store, record transformation) and
`pic2map/server/app.py` (centroid computation). Theorems at the end of the
file settle the specification claims against these definitions.
-/

/-- Value of an EXIF tag as returned by the external extraction collaborator:
Python ints, floats (modelled as rationals), strings and booleans. Booleans
appear because the coordinator stores the validation result under the key
valid; note that in Python a bool is an instance of int. -/
inductive ExifValue where
  | int : Int → ExifValue
  | float : Rat → ExifValue
  | str : String → ExifValue
  | bool : Bool → ExifValue
  deriving DecidableEq, Repr

/-- Raw metadata record: a Python dict from tag names to values, modelled as
an association list (first binding of a key wins on lookup). -/
abbrev RawRecord := List (String × ExifValue)

/-- Lookup of a key in a raw record, mirroring Python dict indexing
(returns none where Python raises KeyError). -/
def dictGet : RawRecord → String → Option ExifValue
  | [], _ => none
  | (k, v) :: rest, key => if k = key then some v else dictGet rest key

/-- Assignment of a key in a raw record, mirroring Python dict item
assignment: replaces the first binding of the key or appends a new one. -/
def dictSet : RawRecord → String → ExifValue → RawRecord
  | [], key, v => [(key, v)]
  | (k, w) :: rest, key, v =>
      if k = key then (key, v) :: rest else (k, w) :: dictSet rest key v

/-- Keys of the voluptuous SCHEMA in gps.py lines 34 to 40. -/
def schemaKeys : List String :=
  ["EXIF:GPSLatitude", "EXIF:GPSLatitudeRef",
   "EXIF:GPSLongitude", "EXIF:GPSLongitudeRef", "SourceFile"]

/-- Check of POSITIVE_NUMBER = All(Any(int, float), Range(min=0)) from
gps.py line 32 on a looked-up value: the value must exist, be an instance of
int or float, and be at least 0. A Python bool is an instance of int, and
both False (0) and True (1) are at least 0, so booleans pass. -/
def posNumCheck : Option ExifValue → Bool
  | some (ExifValue.int n) => decide (0 ≤ n)
  | some (ExifValue.float q) => decide (0 ≤ q)
  | some (ExifValue.bool _) => true
  | _ => false

/-- Check of the two-literal alternative Any(a, b) used for the hemisphere
reference tags in gps.py lines 36 and 38: the looked-up value must exist and
compare equal to one of the two string literals. -/
def refCheck (o : Option ExifValue) (a b : String) : Bool :=
  match o with
  | some v => decide (v = ExifValue.str a) || decide (v = ExifValue.str b)
  | none => false

/-- Check of the unicode (str type) validator used for SourceFile in gps.py
line 39: the looked-up value must exist and be a string; voluptuous type
validators only test isinstance, so the empty string passes. -/
def strCheck : Option ExifValue → Bool
  | some (ExifValue.str _) => true
  | _ => false

/-- Embedding of validate_gps_metadata from gps.py lines 43 to 59: applies
the voluptuous SCHEMA and returns whether it accepted the record. With the
default Schema configuration (extra=PREVENT_EXTRA) any key outside the five
schema keys makes the schema raise Invalid, hence the first conjunct. All
Invalid errors are caught and turned into false; the function never raises. -/
def validate_gps_metadata (r : RawRecord) : Bool :=
  r.all (fun kv => decide (kv.1 ∈ schemaKeys))
  && posNumCheck (dictGet r "EXIF:GPSLatitude")
  && refCheck (dictGet r "EXIF:GPSLatitudeRef") "N" "S"
  && posNumCheck (dictGet r "EXIF:GPSLongitude")
  && refCheck (dictGet r "EXIF:GPSLongitudeRef") "E" "W"
  && strCheck (dictGet r "SourceFile")

/-- Non-negative numeric value as checked by the schema (Prop form of
posNumCheck): an int or float at least 0, or a bool (a Python int). -/
def NonnegNumberValue : ExifValue → Prop
  | ExifValue.int n => 0 ≤ n
  | ExifValue.float q => 0 ≤ q
  | ExifValue.bool _ => True
  | ExifValue.str _ => False

/-- Validity condition following the words of claim C1: latitude and
longitude are non-negative numbers, the latitude reference is N or S, the
longitude reference is E or W, and the source-file identifier is a non-empty
string. This definition follows the claim text, for comparison with
validate_gps_metadata, and says nothing about extra keys. -/
def claimC1Valid (r : RawRecord) : Bool :=
  posNumCheckSpec (dictGet r "EXIF:GPSLatitude")
  && refCheck (dictGet r "EXIF:GPSLatitudeRef") "N" "S"
  && posNumCheckSpec (dictGet r "EXIF:GPSLongitude")
  && refCheck (dictGet r "EXIF:GPSLongitudeRef") "E" "W"
  && (match dictGet r "SourceFile" with
      | some (ExifValue.str s) => decide (s ≠ "")
      | _ => false)
where
  /-- Non-negative number in the sense of the claim text. -/
  posNumCheckSpec : Option ExifValue → Bool
    | some (ExifValue.int n) => decide (0 ≤ n)
    | some (ExifValue.float q) => decide (0 ≤ q)
    | _ => false

/-- Record whose five schema fields are all valid but whose SourceFile is the
empty string. -/
def rC1a : RawRecord :=
  [("EXIF:GPSLatitude", ExifValue.float 1),
   ("EXIF:GPSLatitudeRef", ExifValue.str "N"),
   ("EXIF:GPSLongitude", ExifValue.float 2),
   ("EXIF:GPSLongitudeRef", ExifValue.str "E"),
   ("SourceFile", ExifValue.str "")]

/-- Record meeting every condition of claim C1 but carrying one key outside
the schema (a GPS date stamp, one of the tags the coordinator requests). -/
def rC1b : RawRecord :=
  [("EXIF:GPSLatitude", ExifValue.float 1),
   ("EXIF:GPSLatitudeRef", ExifValue.str "N"),
   ("EXIF:GPSLongitude", ExifValue.float 2),
   ("EXIF:GPSLongitudeRef", ExifValue.str "E"),
   ("SourceFile", ExifValue.str "/a.jpg"),
   ("EXIF:GPSDateStamp", ExifValue.str "2020:01:01")]

/-- Errors a pipeline operation can raise, modelling the Python exceptions
that the claims mention: TypeError (len of a generator), KeyError (missing
dict key), arrow ParserError, the sqlalchemy error raised when executing on
a closed connection, and a failed assert statement. -/
inductive PyErr where
  | typeError
  | keyError
  | parserError
  | resourceClosed
  | assertionFailed
  deriving DecidableEq, Repr

/-- TAGS from gps.py lines 21 to 28: the fixed six-tag set requested from
the extraction collaborator. -/
def TAGS : List String :=
  ["EXIF:GPSDateStamp", "EXIF:GPSLatitude", "EXIF:GPSLatitudeRef",
   "EXIF:GPSLongitude", "EXIF:GPSLongitudeRef", "EXIF:GPSTimeStamp"]

/-- PATHS_PARTITION_SIZE from gps.py line 30. -/
def PATHS_PARTITION_SIZE : Nat := 1000

/-- Embedding of partition from gps.py lines 92 to 94: for i in
range(0, len(lst), size): yield lst[i : i+size]. An empty list yields no
chunk. A step of 0 makes the Python range raise, so that case never occurs
in the source (size is always 1000); it is mapped to the empty result. -/
def partition (lst : List α) (size : Nat) : List (List α) :=
  if h : lst.isEmpty ∨ size = 0 then []
  else lst.take size :: partition (lst.drop size) size
termination_by lst.length
decreasing_by
  simp only [List.length_drop]
  rcases not_or.mp h with ⟨h1, h2⟩
  have h3 : 0 < lst.length := by
    cases lst with
    | nil => simp at h1
    | cons a l => simp
  omega

/-- Annotation step of get_gps_metadata (gps.py lines 80 to 81): every record
of a chunk gets the validator result stored under the key valid. -/
def annotateValid (records : List RawRecord) : List RawRecord :=
  records.map (fun rec =>
    dictSet rec "valid" (ExifValue.bool (validate_gps_metadata rec)))

/-- Embedding of get_gps_metadata from gps.py lines 62 to 89. The external
exiftool collaborator is a parameter mapping a chunk of paths and the tag
list to one raw record per path. For each chunk the collaborator is called
once with the full chunk and TAGS, the validator result is attached to every
record, and the chunk is yielded. When there is more than one partition, the
per-partition progress logging computes len of a generator expression
(gps.py line 86), which raises TypeError during the first iteration, before
any chunk has been yielded; the whole produced sequence is therefore the
error and no batch is observable. -/
def get_gps_metadata (tool : List String → List String → List RawRecord)
    (paths : List String) : Except PyErr (List (List RawRecord)) :=
  let partitions := partition paths PATHS_PARTITION_SIZE
  if partitions.length > 1 then
    Except.error PyErr.typeError
  else
    Except.ok (partitions.map (fun part => annotateValid (tool part TAGS)))

/-- Extraction collaborator stub used for concrete evaluations: returns one
record per path holding only the source-file identifier. -/
def toolStub : List String → List String → List RawRecord :=
  fun paths _ => paths.map (fun p => [("SourceFile", ExifValue.str p)])

/-- Timestamp produced by arrow from the GPS date and time stamps: the
fields of the Python datetime object that arrow builds. -/
structure ArrowDateTime where
  year : Nat
  month : Nat
  day : Nat
  hour : Nat
  minute : Nat
  second : Nat
  microsecond : Nat
  deriving DecidableEq, Repr

/-- Reads exactly n leading decimal digits, returning their value and the
remaining characters. -/
def readFixedDigits : Nat → List Char → Nat → Option (Nat × List Char)
  | 0, cs, acc => some (acc, cs)
  | Nat.succ k, c :: cs, acc =>
      if c.isDigit then readFixedDigits k cs (acc * 10 + (c.toNat - 48))
      else none
  | Nat.succ _, [], _ => none

/-- Consumes one expected literal character. -/
def expectChar (c : Char) : List Char → Option (List Char)
  | d :: cs => if d = c then some cs else none
  | [] => none

/-- Numeric value of a digit list (most significant first). -/
def natOfDigits (cs : List Char) : Nat :=
  cs.foldl (fun acc c => acc * 10 + (c.toNat - 48)) 0

/-- Number of days of a month in the proleptic Gregorian calendar, as
enforced by the Python datetime constructor that arrow calls. -/
def daysInMonth (y m : Nat) : Nat :=
  if m = 2 then
    (if (y % 4 = 0 ∧ y % 100 ≠ 0) ∨ y % 400 = 0 then 29 else 28)
  else if m = 4 ∨ m = 6 ∨ m = 9 ∨ m = 11 then 30 else 31

/-- Field validation performed by the Python datetime constructor: datetime
accepts years 1 to 9999, months 1 to 12, days within the month, hours below
24 and minutes and seconds below 60; anything else raises, which arrow
surfaces as a parse failure. -/
def mkArrowDateTime (y mo d h mi se micro : Nat) : Option ArrowDateTime :=
  if 1 ≤ y ∧ y ≤ 9999 ∧ 1 ≤ mo ∧ mo ≤ 12 ∧ 1 ≤ d ∧ d ≤ daysInMonth y mo
     ∧ h ≤ 23 ∧ mi ≤ 59 ∧ se ≤ 59
  then some (ArrowDateTime.mk y mo d h mi se micro)
  else none

/-- Embedding of arrow.get with the format list
["YYYY:MM:DD HH:mm:ss.SSS", "YYYY:MM:DD HH:mm:ss"] used at db.py lines 266
to 269: the input must be four digits, a colon, two digits, a colon, two
digits, a space, three colon-separated two-digit groups, optionally followed
by a dot and one to three sub-second digits (the SSS token of arrow matches
one to three digits, scaled to microseconds as a decimal fraction); nothing
may remain afterwards. A failure of both formats is a parse failure, which
arrow raises as ParserError. -/
def arrowGetFixed (s : String) : Option ArrowDateTime := do
  let cs := s.toList
  let (y, cs) ← readFixedDigits 4 cs 0
  let cs ← expectChar ':' cs
  let (mo, cs) ← readFixedDigits 2 cs 0
  let cs ← expectChar ':' cs
  let (d, cs) ← readFixedDigits 2 cs 0
  let cs ← expectChar ' ' cs
  let (h, cs) ← readFixedDigits 2 cs 0
  let cs ← expectChar ':' cs
  let (mi, cs) ← readFixedDigits 2 cs 0
  let cs ← expectChar ':' cs
  let (se, cs) ← readFixedDigits 2 cs 0
  match cs with
  | [] => mkArrowDateTime y mo d h mi se 0
  | '.' :: rest =>
      if rest ≠ [] ∧ rest.length ≤ 3 ∧ rest.all Char.isDigit then
        mkArrowDateTime y mo d h mi se
          (natOfDigits rest * 10 ^ (6 - rest.length))
      else none
  | _ => none

/-- Python str conversion used by the string format call at db.py lines 261
to 264. The tag values that reach it from exiftool are strings; the numeric
cases are deterministic stand-ins for the Python repr, and are never strings
the fixed date layout accepts. -/
def pyStr : ExifValue → String
  | ExifValue.str s => s
  | ExifValue.int n => toString n
  | ExifValue.float q => toString q
  | ExifValue.bool b => if b then "True" else "False"

/-- Python multiplication by -1 as applied at db.py lines 255 to 258:
negation on ints and floats, int negation on bools (a Python int), and the
empty string on strings (sequence repetition with a negative count). -/
def pyMulNegOne : ExifValue → ExifValue
  | ExifValue.int n => ExifValue.int (-n)
  | ExifValue.float q => ExifValue.float (-q)
  | ExifValue.bool b => ExifValue.int (-(if b then 1 else 0))
  | ExifValue.str _ => ExifValue.str ""

/-- Row dictionary produced by transform_metadata_to_row: the album string
and the raw field values (filepath, latitude and longitude keep whatever
value type the raw record held), plus the optional parsed timestamp. -/
structure TransRow where
  album : String
  filepath : ExifValue
  latitude : ExifValue
  longitude : ExifValue
  datetime : Option ArrowDateTime
  deriving DecidableEq, Repr

/-- Embedding of transform_metadata_to_row from db.py lines 239 to 273.
The five indexing operations raise KeyError when a key is missing, in the
evaluation order of the source (SourceFile, latitude, longitude, then the
two reference comparisons). The latitude is multiplied by -1 exactly when
the latitude reference equals the string S, the longitude exactly when the
longitude reference equals the string W. When both the GPS date stamp and
the GPS time stamp keys are present, their values are concatenated with a
space and parsed by arrow with the two fixed layouts; a parse failure is
raised (propagated, not swallowed). When either key is absent the datetime
field is None. -/
def transform_metadata_to_row (album : String) (m : RawRecord) :
    Except PyErr TransRow :=
  match dictGet m "SourceFile" with
  | none => Except.error PyErr.keyError
  | some sf =>
  match dictGet m "EXIF:GPSLatitude" with
  | none => Except.error PyErr.keyError
  | some lat0 =>
  match dictGet m "EXIF:GPSLongitude" with
  | none => Except.error PyErr.keyError
  | some lon0 =>
  match dictGet m "EXIF:GPSLatitudeRef" with
  | none => Except.error PyErr.keyError
  | some latRef =>
  match dictGet m "EXIF:GPSLongitudeRef" with
  | none => Except.error PyErr.keyError
  | some lonRef =>
  let lat := if latRef = ExifValue.str "S" then pyMulNegOne lat0 else lat0
  let lon := if lonRef = ExifValue.str "W" then pyMulNegOne lon0 else lon0
  match dictGet m "EXIF:GPSDateStamp", dictGet m "EXIF:GPSTimeStamp" with
  | some d, some t =>
      (match arrowGetFixed (pyStr d ++ " " ++ pyStr t) with
       | some v => Except.ok (TransRow.mk album sf lat lon (some v))
       | none => Except.error PyErr.parserError)
  | _, _ => Except.ok (TransRow.mk album sf lat lon none)

/-- Connection attribute of a Database object (db.py lines 46 to 77): it is
None until connect runs, an open connection inside a context scope, and a
closed (but still truthy) connection object after disconnect, because
disconnect never resets the attribute to None. -/
inductive ConnState where
  | noConn
  | openConn
  | closedConn
  deriving DecidableEq, Repr

/-- Truthiness of the connection attribute in the Python sense: only None is
falsy; a closed connection object is still truthy. -/
def connTruthy : ConnState → Bool
  | ConnState.noConn => false
  | ConnState.openConn => true
  | ConnState.closedConn => true

/-- Persisted row of the location table (db.py lines 113 to 125): surrogate
integer key plus album, filepath, latitude, longitude and the nullable
timestamp. -/
structure LocationRow where
  id : Nat
  album : String
  filepath : String
  latitude : Rat
  longitude : Rat
  datetime : Option ArrowDateTime
  deriving DecidableEq, Repr

/-- Row dictionary passed to LocationDB.insert: the five business columns
without the id, which sqlite assigns. -/
structure RowData where
  album : String
  filepath : String
  latitude : Rat
  longitude : Rat
  datetime : Option ArrowDateTime
  deriving DecidableEq, Repr

/-- State of a LocationDB: the persisted rows of the location table and the
connection attribute. -/
structure LocationDB where
  rows : List LocationRow
  conn : ConnState
  deriving DecidableEq, Repr

/-- Rowid that sqlite assigns to a fresh row of a table declared with an
integer primary key: one more than the largest existing rowid. -/
def freshId (rows : List LocationRow) : Nat :=
  (rows.map (fun r => r.id)).foldr max 0 + 1

/-- Whether some stored row already has the given album and filepath pair,
testing the composite unique constraint uix_album_filepath of db.py lines
122 to 124. -/
def hasPair (rows : List LocationRow) (album filepath : String) : Bool :=
  rows.any (fun r => decide (r.album = album) && decide (r.filepath = filepath))

/-- Effect of one row of the executemany INSERT ... ON CONFLICT DO NOTHING
statement of db.py line 135: a row whose (album, filepath) pair is already
present is skipped silently, any other row is appended with a fresh id. -/
def insertOne (rows : List LocationRow) (r : RowData) : List LocationRow :=
  if hasPair rows r.album r.filepath then rows
  else rows ++ [LocationRow.mk (freshId rows) r.album r.filepath
                  r.latitude r.longitude r.datetime]

/-- Embedding of LocationDB.insert (db.py lines 128 to 138): when the
connection attribute is falsy (None) nothing happens; on an open connection
the batch is processed row by row with conflicting pairs ignored; on a
closed connection sqlalchemy raises. -/
def LocationDB.insert (s : LocationDB) (batch : List RowData) :
    Except PyErr LocationDB :=
  match s.conn with
  | ConnState.noConn => Except.ok s
  | ConnState.closedConn => Except.error PyErr.resourceClosed
  | ConnState.openConn =>
      Except.ok (LocationDB.mk (batch.foldl insertOne s.rows) s.conn)

/-- Embedding of LocationDB.select_all (db.py lines 140 to 156): the albums
argument defaults to None; a truthy (non-empty) album list adds a WHERE
album IN clause; with the connection attribute falsy the function returns
the empty list without querying. -/
def LocationDB.select_all (s : LocationDB) (albums : Option (List String)) :
    Except PyErr (List LocationRow) :=
  match s.conn with
  | ConnState.noConn => Except.ok []
  | ConnState.closedConn => Except.error PyErr.resourceClosed
  | ConnState.openConn =>
      Except.ok (match albums with
        | some l =>
            if l.isEmpty then s.rows
            else s.rows.filter (fun r => l.contains r.album)
        | none => s.rows)

/-- Embedding of LocationDB.get_by_id (db.py lines 158 to 171): first row
with the given id, or None; None as well when the connection attribute is
falsy. -/
def LocationDB.get_by_id (s : LocationDB) (id : Nat) :
    Except PyErr (Option LocationRow) :=
  match s.conn with
  | ConnState.noConn => Except.ok none
  | ConnState.closedConn => Except.error PyErr.resourceClosed
  | ConnState.openConn => Except.ok (s.rows.find? (fun r => decide (r.id = id)))

/-- Embedding of LocationDB.exists (db.py lines 173 to 186): whether any row
of any album has exactly the given filepath; False when the connection
attribute is falsy. -/
def LocationDB.existsFilepath (s : LocationDB) (filepath : String) :
    Except PyErr Bool :=
  match s.conn with
  | ConnState.noConn => Except.ok false
  | ConnState.closedConn => Except.error PyErr.resourceClosed
  | ConnState.openConn =>
      Except.ok (s.rows.any (fun r => decide (r.filepath = filepath)))

/-- Embedding of LocationDB.delete (db.py lines 188 to 202): deletes every
row whose album equals the argument and returns the statement rowcount; it
returns 0 without touching the store when the connection attribute is
falsy. -/
def LocationDB.delete (s : LocationDB) (album : String) :
    Except PyErr (Nat × LocationDB) :=
  match s.conn with
  | ConnState.noConn => Except.ok (0, s)
  | ConnState.closedConn => Except.error PyErr.resourceClosed
  | ConnState.openConn =>
      Except.ok ((s.rows.filter (fun r => decide (r.album = album))).length,
        LocationDB.mk (s.rows.filter (fun r => !(decide (r.album = album)))) s.conn)

/-- First-occurrence deduplication, modelling SELECT DISTINCT on the rows
the query returns. -/
def distinctKeep : List String → List String
  | [] => []
  | x :: xs => x :: distinctKeep (xs.filter (fun y => !(decide (y = x))))
termination_by l => l.length
decreasing_by
  have := List.length_filter_le (fun y => !(decide (y = x))) xs
  simp only [List.length_cons]
  omega

/-- Embedding of LocationDB.list_albums (db.py lines 204 to 219): the
distinct album values, restricted to the given subset when that list is
truthy (non-empty); the empty list when the connection attribute is falsy. -/
def LocationDB.list_albums (s : LocationDB) (albums : List String) :
    Except PyErr (List String) :=
  match s.conn with
  | ConnState.noConn => Except.ok []
  | ConnState.closedConn => Except.error PyErr.resourceClosed
  | ConnState.openConn =>
      Except.ok (if albums.isEmpty then distinctKeep (s.rows.map (fun r => r.album))
        else distinctKeep
          ((s.rows.filter (fun r => albums.contains r.album)).map (fun r => r.album)))

/-- Embedding of LocationDB.count (db.py lines 221 to 236): the number of
rows of exactly the given album; 0 when the connection attribute is falsy. -/
def LocationDB.count (s : LocationDB) (album : String) : Except PyErr Nat :=
  match s.conn with
  | ConnState.noConn => Except.ok 0
  | ConnState.closedConn => Except.error PyErr.resourceClosed
  | ConnState.openConn =>
      Except.ok (s.rows.filter (fun r => decide (r.album = album))).length

/-- Embedding of Database.connect (db.py lines 57 to 60): stores a fresh
open connection in the connection attribute. -/
def LocationDB.connect (s : LocationDB) : LocationDB :=
  LocationDB.mk s.rows ConnState.openConn

/-- Embedding of Database.disconnect (db.py lines 62 to 68): returns at once
when the connection attribute is falsy; otherwise asserts the connection is
not yet closed (an already closed one fails the assert) and closes it,
leaving the truthy closed connection object in the attribute. -/
def LocationDB.disconnect (s : LocationDB) : Except PyErr LocationDB :=
  match s.conn with
  | ConnState.noConn => Except.ok s
  | ConnState.openConn => Except.ok (LocationDB.mk s.rows ConnState.closedConn)
  | ConnState.closedConn => Except.error PyErr.assertionFailed

/-- Sequence of calls to LocationDB.insert, one batch per call, stopping at
the first raised error. -/
def insertCalls (s : LocationDB) : List (List RowData) → Except PyErr LocationDB
  | [] => Except.ok s
  | b :: bs =>
      match s.insert b with
      | Except.ok s2 => insertCalls s2 bs
      | Except.error e => Except.error e

/-- Pairwise uniqueness of the (album, filepath) pair across the stored
rows: the invariant the unique constraint maintains. -/
def pairUnique (rows : List LocationRow) : Prop :=
  List.Pairwise (fun a b => ¬(a.album = b.album ∧ a.filepath = b.filepath)) rows

/-- Modelled from the spec: average from pic2map.util, a module the
repository sources do not include under pic2map; the spec defines the
centroid as the arithmetic mean, so average is the sum divided by the
length. -/
def average (xs : List Rat) : Rat :=
  xs.sum / (xs.length : Rat)

/-- Embedding of the centroid computation of the index handler in
server/app.py lines 48 to 59: the pair (0, 0) when no row was selected,
otherwise the average of the latitudes paired with the average of the
longitudes. -/
def centroid (rows : List LocationRow) : Rat × Rat :=
  if rows.length = 0 then (0, 0)
  else (average (rows.map (fun r => r.latitude)),
        average (rows.map (fun r => r.longitude)))

/-- Raw record with the five schema keys, a southern latitude and a western
longitude, and no GPS time information. -/
def mC2 : RawRecord :=
  [("SourceFile", ExifValue.str "/a.jpg"),
   ("EXIF:GPSLatitude", ExifValue.float (407/10)),
   ("EXIF:GPSLatitudeRef", ExifValue.str "S"),
   ("EXIF:GPSLongitude", ExifValue.float 74),
   ("EXIF:GPSLongitudeRef", ExifValue.str "W")]

/-- Raw record with the five schema keys plus parseable GPS date and time
stamps. -/
def mC3 : RawRecord :=
  [("SourceFile", ExifValue.str "/b.jpg"),
   ("EXIF:GPSLatitude", ExifValue.float 1),
   ("EXIF:GPSLatitudeRef", ExifValue.str "N"),
   ("EXIF:GPSLongitude", ExifValue.float 2),
   ("EXIF:GPSLongitudeRef", ExifValue.str "E"),
   ("EXIF:GPSDateStamp", ExifValue.str "2021:06:05"),
   ("EXIF:GPSTimeStamp", ExifValue.str "10:20:30")]

/-- A list of 2500 picture paths, enough for three partitions. -/
def paths2500 : List String := List.replicate 2500 "/pic.jpg"

/-- Example row of album tripA. -/
def rowTripA1 : LocationRow := LocationRow.mk 1 "tripA" "/a1.jpg" 1 2 none

/-- Second example row of album tripA. -/
def rowTripA2 : LocationRow := LocationRow.mk 2 "tripA" "/a2.jpg" 3 4 none

/-- Example row of album tripB. -/
def rowTripB : LocationRow := LocationRow.mk 3 "tripB" "/b1.jpg" 5 6 none

/-- Open store holding two tripA rows and one tripB row. -/
def storeC7 : LocationDB :=
  LocationDB.mk [rowTripA1, rowTripA2, rowTripB] ConnState.openConn

/-- Open store holding one tripA row and one tripB row. -/
def storeC9 : LocationDB :=
  LocationDB.mk [rowTripA1, rowTripB] ConnState.openConn

/-- Row data inserted repeatedly in the idempotence witness. -/
def rdC6 : RowData := RowData.mk "alb" "/dup.jpg" 1 2 none

/-- Row with latitude 10 and longitude 20. -/
def rowC8a : LocationRow := LocationRow.mk 1 "a" "/p1.jpg" 10 20 none

/-- Row with latitude 30 and longitude 40. -/
def rowC8b : LocationRow := LocationRow.mk 2 "a" "/p2.jpg" 30 40 none

theorem posNumCheck_eq_true_iff (o : Option ExifValue) :
    posNumCheck o = true ↔ ∃ v, o = some v ∧ NonnegNumberValue v := by
  cases o with
  | none => simp [posNumCheck]
  | some v => cases v <;> simp [posNumCheck, NonnegNumberValue]

theorem refCheck_eq_true_iff (o : Option ExifValue) (a b : String) :
    refCheck o a b = true ↔
      o = some (ExifValue.str a) ∨ o = some (ExifValue.str b) := by
  cases o with
  | none => simp [refCheck]
  | some v => simp [refCheck]

theorem strCheck_eq_true_iff (o : Option ExifValue) :
    strCheck o = true ↔ ∃ s, o = some (ExifValue.str s) := by
  cases o with
  | none => simp [strCheck]
  | some v => cases v <;> simp [strCheck]

/-- C1, counterexample. The claim fails on the code in both directions of
its iff: the record rC1a has valid coordinates and references but an empty
SourceFile string, so the claim demands false, yet the schema only checks
the type of SourceFile and validate_gps_metadata returns true; the record
rC1b meets every condition the claim lists, yet it carries one key outside
the five-key schema (a GPS date stamp) and the voluptuous default
extra=PREVENT_EXTRA makes validate_gps_metadata return false. -/
theorem spec_c1_counterexample :
    validate_gps_metadata rC1a = true ∧ claimC1Valid rC1a = false
    ∧ validate_gps_metadata rC1b = false ∧ claimC1Valid rC1b = true := by
  decide

/-- C1, amended. For every raw metadata record r, validate_gps_metadata r
returns true if and only if every key of r is one of the five schema keys,
the latitude and longitude are present non-negative numbers (a Python bool
counting as an integer), the latitude reference is the string N or S, the
longitude reference is the string E or W, and the source-file identifier is
a string, possibly empty; in every other case it returns false, and it
never raises. -/
theorem spec_c1_amended (r : RawRecord) :
    validate_gps_metadata r = true ↔
      ((∀ kv ∈ r, kv.1 ∈ schemaKeys)
       ∧ (∃ v, dictGet r "EXIF:GPSLatitude" = some v ∧ NonnegNumberValue v)
       ∧ (dictGet r "EXIF:GPSLatitudeRef" = some (ExifValue.str "N")
          ∨ dictGet r "EXIF:GPSLatitudeRef" = some (ExifValue.str "S"))
       ∧ (∃ v, dictGet r "EXIF:GPSLongitude" = some v ∧ NonnegNumberValue v)
       ∧ (dictGet r "EXIF:GPSLongitudeRef" = some (ExifValue.str "E")
          ∨ dictGet r "EXIF:GPSLongitudeRef" = some (ExifValue.str "W"))
       ∧ (∃ s, dictGet r "SourceFile" = some (ExifValue.str s))) := by
  simp only [validate_gps_metadata, Bool.and_eq_true, List.all_eq_true,
    decide_eq_true_eq, posNumCheck_eq_true_iff, refCheck_eq_true_iff,
    strCheck_eq_true_iff, and_assoc]

/-- C2. For every album string and raw record containing the SourceFile,
latitude, latitude-reference, longitude and longitude-reference tags, the
row produced by transform_metadata_to_row holds the latitude multiplied by
-1 exactly when the latitude reference equals the string S and the
longitude multiplied by -1 exactly when the longitude reference equals the
string W (references N and E, or any other value, leave the respective
value unchanged); on numeric values that multiplication is negation. -/
theorem spec_c2 (album : String) (m : RawRecord) (row : TransRow)
    (sf lv lref lov wref : ExifValue)
    (hsf : dictGet m "SourceFile" = some sf)
    (hlat : dictGet m "EXIF:GPSLatitude" = some lv)
    (hlatref : dictGet m "EXIF:GPSLatitudeRef" = some lref)
    (hlon : dictGet m "EXIF:GPSLongitude" = some lov)
    (hlonref : dictGet m "EXIF:GPSLongitudeRef" = some wref)
    (hrow : transform_metadata_to_row album m = Except.ok row) :
    (row.latitude = if lref = ExifValue.str "S" then pyMulNegOne lv else lv)
    ∧ (row.longitude = if wref = ExifValue.str "W" then pyMulNegOne lov else lov)
    ∧ (∀ n : Int, pyMulNegOne (ExifValue.int n) = ExifValue.int (-n))
    ∧ (∀ q : Rat, pyMulNegOne (ExifValue.float q) = ExifValue.float (-q)) := by
  unfold transform_metadata_to_row at hrow
  rw [hsf, hlat, hlon, hlatref, hlonref] at hrow
  rcases hD : dictGet m "EXIF:GPSDateStamp" with _ | d <;>
    rcases hT : dictGet m "EXIF:GPSTimeStamp" with _ | t <;>
    rw [hD, hT] at hrow
  case none.none | none.some | some.none =>
    simp at hrow
    subst hrow
    exact ⟨rfl, rfl, fun n => rfl, fun q => rfl⟩
  case some.some =>
    simp at hrow
    rcases hP : arrowGetFixed (pyStr d ++ " " ++ pyStr t) with _ | v <;>
      rw [hP] at hrow
    · simp at hrow
    · simp at hrow
      subst hrow
      exact ⟨rfl, rfl, fun n => rfl, fun q => rfl⟩

/-- C2, witness: the record mC2 has latitude 40.7 S and longitude 74 W, and
the produced row stores -40.7 and -74. -/
theorem spec_c2_witness :
    ((TransRow.mk "trip" (ExifValue.str "/a.jpg")
        (ExifValue.float (-(407/10))) (ExifValue.float (-74)) none).latitude
      = if ExifValue.str "S" = ExifValue.str "S"
        then pyMulNegOne (ExifValue.float (407/10)) else ExifValue.float (407/10))
    ∧ ((TransRow.mk "trip" (ExifValue.str "/a.jpg")
        (ExifValue.float (-(407/10))) (ExifValue.float (-74)) none).longitude
      = if ExifValue.str "W" = ExifValue.str "W"
        then pyMulNegOne (ExifValue.float 74) else ExifValue.float 74)
    ∧ (∀ n : Int, pyMulNegOne (ExifValue.int n) = ExifValue.int (-n))
    ∧ (∀ q : Rat, pyMulNegOne (ExifValue.float q) = ExifValue.float (-q)) :=
  spec_c2 "trip" mC2
    (TransRow.mk "trip" (ExifValue.str "/a.jpg")
      (ExifValue.float (-(407/10))) (ExifValue.float (-74)) none)
    (ExifValue.str "/a.jpg") (ExifValue.float (407/10)) (ExifValue.str "S")
    (ExifValue.float 74) (ExifValue.str "W")
    rfl rfl rfl rfl rfl rfl

/-- C3. For every raw record containing the five schema tags: when both the
GPS date stamp and the GPS time stamp are present, transform_metadata_to_row
concatenates them with a space and parses the result with the fixed layout
(four-digit year, two-digit month, day, hour, minute and second separated by
colons and one space, with or without a sub-second suffix of up to three
digits); a parse failure is propagated as an error, and a parse success is
stored in the datetime field of the returned row. When either stamp is
absent, the returned row has a null datetime and no error is raised. -/
theorem spec_c3 (album : String) (m : RawRecord)
    (sf lv lref lov wref : ExifValue)
    (hsf : dictGet m "SourceFile" = some sf)
    (hlat : dictGet m "EXIF:GPSLatitude" = some lv)
    (hlatref : dictGet m "EXIF:GPSLatitudeRef" = some lref)
    (hlon : dictGet m "EXIF:GPSLongitude" = some lov)
    (hlonref : dictGet m "EXIF:GPSLongitudeRef" = some wref) :
    (∀ d t, dictGet m "EXIF:GPSDateStamp" = some d →
      dictGet m "EXIF:GPSTimeStamp" = some t →
      ((arrowGetFixed (pyStr d ++ " " ++ pyStr t) = none →
          transform_metadata_to_row album m = Except.error PyErr.parserError)
       ∧ (∀ v, arrowGetFixed (pyStr d ++ " " ++ pyStr t) = some v →
          ∃ row, transform_metadata_to_row album m = Except.ok row
            ∧ row.datetime = some v)))
    ∧ ((dictGet m "EXIF:GPSDateStamp" = none
        ∨ dictGet m "EXIF:GPSTimeStamp" = none) →
       ∃ row, transform_metadata_to_row album m = Except.ok row
         ∧ row.datetime = none) := by
  constructor
  · intro d t hD hT
    refine ⟨fun hP => ?_, fun v hP => ?_⟩
    · simp [transform_metadata_to_row, hsf, hlat, hlon, hlatref, hlonref,
        hD, hT, hP]
    · exact ⟨TransRow.mk album sf
        (if lref = ExifValue.str "S" then pyMulNegOne lv else lv)
        (if wref = ExifValue.str "W" then pyMulNegOne lov else lov) (some v),
        by simp [transform_metadata_to_row, hsf, hlat, hlon, hlatref, hlonref,
          hD, hT, hP], rfl⟩
  · intro hAbsent
    rcases hAbsent with hD | hT
    · exact ⟨TransRow.mk album sf
        (if lref = ExifValue.str "S" then pyMulNegOne lv else lv)
        (if wref = ExifValue.str "W" then pyMulNegOne lov else lov) none,
        by simp [transform_metadata_to_row, hsf, hlat, hlon, hlatref, hlonref,
          hD], rfl⟩
    · rcases hD : dictGet m "EXIF:GPSDateStamp" with _ | d <;>
        exact ⟨TransRow.mk album sf
          (if lref = ExifValue.str "S" then pyMulNegOne lv else lv)
          (if wref = ExifValue.str "W" then pyMulNegOne lov else lov) none,
          by simp [transform_metadata_to_row, hsf, hlat, hlon, hlatref,
            hlonref, hD, hT], rfl⟩

/-- C3, witness: the record mC3 carries the date stamp 2021:06:05 and time
stamp 10:20:30, and the produced row stores the parsed timestamp. -/
theorem spec_c3_witness :
    ∃ row, transform_metadata_to_row "alb" mC3 = Except.ok row
      ∧ row.datetime = some (ArrowDateTime.mk 2021 6 5 10 20 30 0) :=
  ((spec_c3 "alb" mC3 (ExifValue.str "/b.jpg") (ExifValue.float 1)
      (ExifValue.str "N") (ExifValue.float 2) (ExifValue.str "E")
      rfl rfl rfl rfl rfl).1
    (ExifValue.str "2021:06:05") (ExifValue.str "10:20:30") rfl rfl).2
    (ArrowDateTime.mk 2021 6 5 10 20 30 0) rfl

theorem partition_nil (size : Nat) : partition ([] : List α) size = [] := by
  unfold partition
  simp

theorem partition_eq_cons (lst : List α) (size : Nat)
    (h1 : lst ≠ []) (h2 : size ≠ 0) :
    partition lst size = lst.take size :: partition (lst.drop size) size := by
  have hcond : ¬(lst.isEmpty ∨ size = 0) := by
    simp [List.isEmpty_iff, h1, h2]
  conv_lhs => rw [partition]
  rw [dif_neg hcond]

theorem partition_join_aux (size : Nat) (hs : size ≠ 0) :
    ∀ (n : Nat) (l : List α), l.length ≤ n → (partition l size).flatten = l := by
  intro n
  induction n with
  | zero =>
      intro l hl
      have h0 : l = [] := by
        cases l with
        | nil => rfl
        | cons a t => simp at hl
      subst h0
      simp [partition_nil]
  | succ n ih =>
      intro l hl
      by_cases h1 : l = []
      · subst h1
        simp [partition_nil]
      · rw [partition_eq_cons l size h1 hs, List.flatten_cons,
          ih (l.drop size) ?_, List.take_append_drop]
        have h2 : 0 < l.length := List.length_pos.mpr h1
        simp only [List.length_drop]
        omega

theorem partition_chunk_bounds (size : Nat) (hs : size ≠ 0) :
    ∀ (n : Nat) (l : List α), l.length ≤ n →
      ∀ c ∈ partition l size, c ≠ [] ∧ c.length ≤ size := by
  intro n
  induction n with
  | zero =>
      intro l hl c hc
      have h0 : l = [] := by
        cases l with
        | nil => rfl
        | cons a t => simp at hl
      subst h0
      simp [partition_nil] at hc
  | succ n ih =>
      intro l hl c hc
      by_cases h1 : l = []
      · subst h1
        simp [partition_nil] at hc
      · rw [partition_eq_cons l size h1 hs] at hc
        rcases List.mem_cons.mp hc with rfl | hmem
        · refine ⟨?_, List.length_take_le _ _⟩
          simp [List.take_eq_nil_iff, h1, hs]
        · have h2 : 0 < l.length := List.length_pos.mpr h1
          refine ih (l.drop size) ?_ c hmem
          simp only [List.length_drop]
          omega

theorem partition_dropLast_len (size : Nat) (hs : size ≠ 0) :
    ∀ (n : Nat) (l : List α), l.length ≤ n →
      ∀ c ∈ (partition l size).dropLast, c.length = size := by
  intro n
  induction n with
  | zero =>
      intro l hl c hc
      have h0 : l = [] := by
        cases l with
        | nil => rfl
        | cons a t => simp at hl
      subst h0
      simp [partition_nil] at hc
  | succ n ih =>
      intro l hl c hc
      by_cases h1 : l = []
      · subst h1
        simp [partition_nil] at hc
      · rw [partition_eq_cons l size h1 hs] at hc
        rcases hrest : partition (l.drop size) size with _ | ⟨d, ds⟩
        · rw [hrest] at hc
          simp at hc
        · rw [hrest] at hc
          have hstep : (l.take size :: d :: ds).dropLast
              = l.take size :: (d :: ds).dropLast := rfl
          rw [hstep] at hc
          rcases List.mem_cons.mp hc with rfl | hmem
          · have hdrop : l.drop size ≠ [] := by
              intro h0
              rw [h0, partition_nil] at hrest
              cases hrest
            have hlen : size < l.length := by
              by_contra hle
              push_neg at hle
              exact hdrop (List.drop_eq_nil_of_le hle)
            rw [List.length_take]
            exact Nat.min_eq_left (Nat.le_of_lt hlen)
          · rw [← hrest] at hmem
            have h2 : 0 < l.length := List.length_pos.mpr h1
            refine ih (l.drop size) ?_ c hmem
            simp only [List.length_drop]
            omega

theorem partition_paths2500 :
    partition paths2500 1000 =
      [List.replicate 1000 "/pic.jpg", List.replicate 1000 "/pic.jpg",
       List.replicate 500 "/pic.jpg"] := by
  have hne : ∀ k : Nat, k ≠ 0 → (List.replicate k "/pic.jpg") ≠ [] := by
    intro k hk h
    exact hk (by simpa using congrArg List.length h)
  show partition (List.replicate 2500 "/pic.jpg") 1000 = _
  rw [partition_eq_cons _ _ (hne 2500 (by norm_num)) (by norm_num),
    List.take_replicate, List.drop_replicate]
  norm_num
  rw [partition_eq_cons _ _ (hne 1500 (by norm_num)) (by norm_num),
    List.take_replicate, List.drop_replicate]
  norm_num
  rw [partition_eq_cons _ _ (hne 500 (by norm_num)) (by norm_num),
    List.take_replicate, List.drop_replicate]
  norm_num
  rw [partition_nil]

/-- C4. For every list of paths, partition at the tunable constant
PATHS_PARTITION_SIZE = 1000 splits it into consecutive chunks in input
order: concatenating the chunks yields the original list, every chunk is
non-empty and holds at most 1000 paths, every chunk except possibly the
last holds exactly 1000, and a list of 2500 paths yields exactly the three
chunks of sizes 1000, 1000 and 500, in that order. -/
theorem spec_c4 (lst : List String) :
    PATHS_PARTITION_SIZE = 1000
    ∧ (partition lst 1000).flatten = lst
    ∧ (∀ c ∈ partition lst 1000, c ≠ [] ∧ c.length ≤ 1000)
    ∧ (∀ c ∈ (partition lst 1000).dropLast, c.length = 1000)
    ∧ (partition paths2500 1000).map List.length = [1000, 1000, 500] := by
  refine ⟨rfl,
    partition_join_aux 1000 (by norm_num) lst.length lst le_rfl,
    fun c hc => partition_chunk_bounds 1000 (by norm_num) lst.length lst le_rfl c hc,
    fun c hc => partition_dropLast_len 1000 (by norm_num) lst.length lst le_rfl c hc,
    ?_⟩
  rw [partition_paths2500]
  simp only [List.map_cons, List.map_nil, List.length_replicate]

/-- C4, witness: on the 2500-path list the chunks concatenate back to the
input. -/
theorem spec_c4_witness :
    (partition paths2500 1000).flatten = paths2500 :=
  (spec_c4 paths2500).2.1

/-- C5, code evaluation at the failing input. On a list of 2500 paths the
partitioning yields three chunks, the multi-partition progress logging
applies len to a generator expression (gps.py line 86) during the first
loop iteration, and the whole extraction raises TypeError before any batch
is yielded, contrary to the claim that one annotated batch is yielded per
partition. With at most 1000 paths (a single partition) the logging branch
is skipped and the coordinator behaves as the claim describes. -/
theorem spec_c5_bug :
    get_gps_metadata toolStub paths2500 = Except.error PyErr.typeError := by
  unfold get_gps_metadata PATHS_PARTITION_SIZE
  rw [partition_paths2500]
  norm_num

theorem insertOne_extends (rows : List LocationRow) (r : RowData) :
    ∃ t, insertOne rows r = rows ++ t := by
  unfold insertOne
  split
  · exact ⟨[], by simp⟩
  · exact ⟨_, rfl⟩

theorem foldl_insertOne_extends (batch : List RowData) :
    ∀ rows : List LocationRow, ∃ t, batch.foldl insertOne rows = rows ++ t := by
  induction batch with
  | nil => intro rows; exact ⟨[], by simp⟩
  | cons b bs ih =>
      intro rows
      rcases insertOne_extends rows b with ⟨t1, h1⟩
      rcases ih (insertOne rows b) with ⟨t2, h2⟩
      exact ⟨t1 ++ t2, by rw [List.foldl_cons, h2, h1, List.append_assoc]⟩

theorem insertOne_pairUnique (rows : List LocationRow) (r : RowData)
    (h : pairUnique rows) : pairUnique (insertOne rows r) := by
  unfold insertOne
  split
  · exact h
  · rename_i hnp
    unfold pairUnique
    rw [List.pairwise_append]
    refine ⟨h, List.pairwise_singleton _ _, ?_⟩
    intro a ha b hb
    simp only [List.mem_singleton] at hb
    subst hb
    intro hab
    apply hnp
    unfold hasPair
    rw [List.any_eq_true]
    exact ⟨a, ha, by simp [hab.1, hab.2]⟩

theorem foldl_insertOne_pairUnique (batch : List RowData) :
    ∀ rows, pairUnique rows → pairUnique (batch.foldl insertOne rows) := by
  induction batch with
  | nil => intro rows h; exact h
  | cons b bs ih => intro rows h; exact ih _ (insertOne_pairUnique rows b h)

theorem foldl_batches_pairUnique (batches : List (List RowData)) :
    ∀ rows, pairUnique rows →
      pairUnique (batches.foldl (fun acc b => b.foldl insertOne acc) rows) := by
  induction batches with
  | nil => intro rows h; exact h
  | cons b bs ih => intro rows h; exact ih _ (foldl_insertOne_pairUnique b rows h)

theorem foldl_batches_extends (batches : List (List RowData)) :
    ∀ rows, ∃ t,
      batches.foldl (fun acc b => b.foldl insertOne acc) rows = rows ++ t := by
  induction batches with
  | nil => intro rows; exact ⟨[], by simp⟩
  | cons b bs ih =>
      intro rows
      rcases foldl_insertOne_extends b rows with ⟨t1, h1⟩
      rcases ih (b.foldl insertOne rows) with ⟨t2, h2⟩
      exact ⟨t1 ++ t2, by rw [List.foldl_cons, h2, h1, List.append_assoc]⟩

theorem pairUnique_count (l : List LocationRow) (a fp : String)
    (h : pairUnique l) (hex : ∃ r ∈ l, r.album = a ∧ r.filepath = fp) :
    (l.filter (fun x => decide (x.album = a)
      && decide (x.filepath = fp))).length = 1 := by
  induction l with
  | nil => rcases hex with ⟨r, hr, _⟩; cases hr
  | cons x xs ih =>
      rw [pairUnique, List.pairwise_cons] at h
      rcases h with ⟨hx, hxs⟩
      by_cases hmatch : x.album = a ∧ x.filepath = fp
      · rw [List.filter_cons_of_pos (by simp [hmatch.1, hmatch.2])]
        have hnone : xs.filter (fun y => decide (y.album = a)
            && decide (y.filepath = fp)) = [] := by
          rw [List.filter_eq_nil]
          intro y hy hpy
          simp only [Bool.and_eq_true, decide_eq_true_eq] at hpy
          exact hx y hy ⟨hmatch.1.trans hpy.1.symm, hmatch.2.trans hpy.2.symm⟩
        rw [hnone]
        rfl
      · rw [List.filter_cons_of_neg (by
          simp only [Bool.and_eq_true, decide_eq_true_eq]
          intro hcon
          exact hmatch hcon)]
        apply ih hxs
        rcases hex with ⟨r, hr, hra⟩
        rcases List.mem_cons.mp hr with rfl | hrxs
        · exact absurd hra hmatch
        · exact ⟨r, hrxs, hra⟩

theorem insertCalls_open (rows : List LocationRow)
    (batches : List (List RowData)) :
    insertCalls (LocationDB.mk rows ConnState.openConn) batches
      = Except.ok (LocationDB.mk
          (batches.foldl (fun acc b => b.foldl insertOne acc) rows)
          ConnState.openConn) := by
  induction batches generalizing rows with
  | nil => rfl
  | cons b bs ih => exact ih (b.foldl insertOne rows)

/-- C6. On an open store whose rows satisfy the (album, filepath)
uniqueness invariant, any sequence of insert calls succeeds without error,
preserves the invariant, never removes or overwrites an existing row (the
old rows stay unchanged as a prefix of the new ones), and leaves exactly
one row for every pair that was already present, so re-inserting an
existing pair in any batch of any call is a no-op. -/
theorem spec_c6 (s : LocationDB) (batches : List (List RowData))
    (hopen : s.conn = ConnState.openConn) (huniq : pairUnique s.rows) :
    ∃ s2, insertCalls s batches = Except.ok s2
      ∧ pairUnique s2.rows
      ∧ (∃ t, s2.rows = s.rows ++ t)
      ∧ (∀ a fp, (∃ r ∈ s.rows, r.album = a ∧ r.filepath = fp) →
          (s2.rows.filter (fun x => decide (x.album = a)
            && decide (x.filepath = fp))).length = 1) := by
  obtain ⟨rows, conn⟩ := s
  cases conn with
  | noConn => simp at hopen
  | closedConn => simp at hopen
  | openConn =>
      refine ⟨_, insertCalls_open rows batches,
        foldl_batches_pairUnique batches rows huniq,
        foldl_batches_extends batches rows, ?_⟩
      intro a fp hex
      apply pairUnique_count _ a fp (foldl_batches_pairUnique batches rows huniq)
      rcases foldl_batches_extends batches rows with ⟨t, ht⟩
      rcases hex with ⟨r, hr, hra⟩
      exact ⟨r, by rw [ht]; exact List.mem_append_left _ hr, hra⟩

/-- C6, witness: inserting the same row data twice in one batch and once
more in a second call on an initially empty open store. -/
theorem spec_c6_witness :
    ∃ s2, insertCalls (LocationDB.mk [] ConnState.openConn)
        [[rdC6, rdC6], [rdC6]] = Except.ok s2
      ∧ pairUnique s2.rows
      ∧ (∃ t, s2.rows = (LocationDB.mk [] ConnState.openConn).rows ++ t)
      ∧ (∀ a fp, (∃ r ∈ (LocationDB.mk [] ConnState.openConn).rows,
            r.album = a ∧ r.filepath = fp) →
          (s2.rows.filter (fun x => decide (x.album = a)
            && decide (x.filepath = fp))).length = 1) :=
  spec_c6 (LocationDB.mk [] ConnState.openConn) [[rdC6, rdC6], [rdC6]]
    rfl List.Pairwise.nil

/-- C7. On an open store, delete removes exactly the rows whose album
equals the given string, returns exactly that number of rows, leaves every
row of every other album unchanged (in order), returns 0 rather than an
error when no row matches, and returns 0 when repeated. -/
theorem spec_c7 (s : LocationDB) (album : String)
    (hopen : s.conn = ConnState.openConn) :
    ∃ s2, s.delete album
        = Except.ok ((s.rows.filter (fun r => decide (r.album = album))).length, s2)
      ∧ s2.rows = s.rows.filter (fun r => !(decide (r.album = album)))
      ∧ s2.conn = ConnState.openConn
      ∧ ((∀ r ∈ s.rows, r.album ≠ album) →
          (s.rows.filter (fun r => decide (r.album = album))).length = 0)
      ∧ s2.delete album = Except.ok (0, s2) := by
  obtain ⟨rows, conn⟩ := s
  cases conn with
  | noConn => simp at hopen
  | closedConn => simp at hopen
  | openConn =>
      refine ⟨LocationDB.mk
          (rows.filter (fun r => !(decide (r.album = album))))
          ConnState.openConn, rfl, rfl, rfl, ?_, ?_⟩
      · intro hnone
        rw [List.length_eq_zero, List.filter_eq_nil]
        intro r hr hdec
        exact hnone r hr (by simpa using hdec)
      · have h1 : (rows.filter (fun r => !(decide (r.album = album)))).filter
            (fun r => decide (r.album = album)) = [] := by
          rw [List.filter_filter]
          simp
        have h2 : (rows.filter (fun r => !(decide (r.album = album)))).filter
            (fun r => !(decide (r.album = album)))
            = rows.filter (fun r => !(decide (r.album = album))) := by
          rw [List.filter_filter]
          simp
        simp [LocationDB.delete, h1, h2]

/-- C7, witness: deleting tripA from a store holding two tripA rows and one
tripB row. -/
theorem spec_c7_witness :
    ∃ s2, storeC7.delete "tripA"
        = Except.ok ((storeC7.rows.filter
            (fun r => decide (r.album = "tripA"))).length, s2)
      ∧ s2.rows = storeC7.rows.filter (fun r => !(decide (r.album = "tripA")))
      ∧ s2.conn = ConnState.openConn
      ∧ ((∀ r ∈ storeC7.rows, r.album ≠ "tripA") →
          (storeC7.rows.filter (fun r => decide (r.album = "tripA"))).length = 0)
      ∧ s2.delete "tripA" = Except.ok (0, s2) :=
  spec_c7 storeC7 "tripA" rfl

/-- C8. The centroid of an empty record set is exactly the sentinel (0, 0);
the centroid of a non-empty record set is the arithmetic mean of the
latitudes paired with the arithmetic mean of the longitudes; the records
(10, 20) and (30, 40) have centroid (20, 30). -/
theorem spec_c8 :
    centroid [] = (0, 0)
    ∧ (∀ rows : List LocationRow, rows ≠ [] →
        centroid rows
          = ((rows.map (fun r => r.latitude)).sum / (rows.length : Rat),
             (rows.map (fun r => r.longitude)).sum / (rows.length : Rat)))
    ∧ centroid [rowC8a, rowC8b] = (20, 30) := by
  refine ⟨rfl, ?_, ?_⟩
  · intro rows hne
    have hlen : rows.length ≠ 0 := fun h0 => hne (List.length_eq_zero.mp h0)
    unfold centroid average
    rw [if_neg hlen]
    simp [List.length_map]
  · norm_num [centroid, average, rowC8a, rowC8b]

/-- C8, witness: a single record keeps its own coordinates as the mean. -/
theorem spec_c8_witness :
    centroid [rowC8a]
      = ((([rowC8a] : List LocationRow).map (fun r => r.latitude)).sum
            / (([rowC8a] : List LocationRow).length : Rat),
         (([rowC8a] : List LocationRow).map (fun r => r.longitude)).sum
            / (([rowC8a] : List LocationRow).length : Rat)) :=
  spec_c8.2.1 [rowC8a] (by simp)

/-- C9. On an open store, select_all with a truthy (non-empty) album list
returns exactly the stored rows whose album value is a member of that list,
and select_all with no album list returns all stored rows. -/
theorem spec_c9 (s : LocationDB) (hopen : s.conn = ConnState.openConn) :
    (∀ albums : List String, albums ≠ [] →
      s.select_all (some albums)
        = Except.ok (s.rows.filter (fun r => albums.contains r.album)))
    ∧ s.select_all none = Except.ok s.rows := by
  obtain ⟨rows, conn⟩ := s
  cases conn with
  | noConn => simp at hopen
  | closedConn => simp at hopen
  | openConn =>
      refine ⟨?_, rfl⟩
      intro albums hne
      have hempty : albums.isEmpty = false := by
        cases albums with
        | nil => exact absurd rfl hne
        | cons a l => rfl
      simp [LocationDB.select_all, hempty]

/-- C9, witness: on a store holding a tripA row and a tripB row, selecting
tripA returns only the tripA row. -/
theorem spec_c9_witness :
    storeC9.select_all (some ["tripA"]) = Except.ok [rowTripA1] := by
  have h := (spec_c9 storeC9 rfl).1 ["tripA"] (by simp)
  rw [h]
  rfl

/-- C10, counterexample. A store that was connected and then disconnected
keeps the closed connection object in its connection attribute, which is
truthy, so operations execute on the closed connection and raise instead of
returning the defaults the claim describes: delete raises instead of
returning 0 and insert raises instead of writing nothing. -/
theorem spec_c10_counterexample :
    LocationDB.disconnect (LocationDB.connect (LocationDB.mk [] ConnState.noConn))
        = Except.ok (LocationDB.mk [] ConnState.closedConn)
    ∧ LocationDB.delete (LocationDB.mk [] ConnState.closedConn) "trip"
        = Except.error PyErr.resourceClosed
    ∧ LocationDB.insert (LocationDB.mk [] ConnState.closedConn) [rdC6]
        = Except.error PyErr.resourceClosed :=
  ⟨rfl, rfl, rfl⟩

/-- C10, amended. For every LocationDB that has never been connected (its
connection attribute is still None, hence falsy), every operation silently
returns a default value instead of raising: insert writes nothing,
select_all returns the empty result, get_by_id returns None, the filepath
existence check returns False, delete returns 0, list_albums returns the
empty list and count returns 0; the stored record set is unchanged by all
of them. After a connect and disconnect cycle the attribute holds a truthy
closed connection object and operations raise instead. -/
theorem spec_c10_amended (s : LocationDB) (h : s.conn = ConnState.noConn) :
    (∀ batch, s.insert batch = Except.ok s)
    ∧ (∀ albums, s.select_all albums = Except.ok [])
    ∧ (∀ id, s.get_by_id id = Except.ok none)
    ∧ (∀ fp, s.existsFilepath fp = Except.ok false)
    ∧ (∀ album, s.delete album = Except.ok (0, s))
    ∧ (∀ albums, s.list_albums albums = Except.ok [])
    ∧ (∀ album, s.count album = Except.ok 0) := by
  obtain ⟨rows, conn⟩ := s
  cases conn with
  | openConn => simp at h
  | closedConn => simp at h
  | noConn =>
      exact ⟨fun _ => rfl, fun _ => rfl, fun _ => rfl, fun _ => rfl,
        fun _ => rfl, fun _ => rfl, fun _ => rfl⟩

/-- C10, witness: a never-connected store holding one row returns every
default and keeps its row. -/
theorem spec_c10_witness :
    (∀ batch, (LocationDB.mk [rowTripA1] ConnState.noConn).insert batch
        = Except.ok (LocationDB.mk [rowTripA1] ConnState.noConn))
    ∧ (∀ albums, (LocationDB.mk [rowTripA1] ConnState.noConn).select_all albums
        = Except.ok [])
    ∧ (∀ id, (LocationDB.mk [rowTripA1] ConnState.noConn).get_by_id id
        = Except.ok none)
    ∧ (∀ fp, (LocationDB.mk [rowTripA1] ConnState.noConn).existsFilepath fp
        = Except.ok false)
    ∧ (∀ album, (LocationDB.mk [rowTripA1] ConnState.noConn).delete album
        = Except.ok (0, LocationDB.mk [rowTripA1] ConnState.noConn))
    ∧ (∀ albums, (LocationDB.mk [rowTripA1] ConnState.noConn).list_albums albums
        = Except.ok [])
    ∧ (∀ album, (LocationDB.mk [rowTripA1] ConnState.noConn).count album
        = Except.ok 0) :=
  spec_c10_amended (LocationDB.mk [rowTripA1] ConnState.noConn) rfl
